import Mathlib

/-!
Verification development for the Fine Gear Profile Generator core layer.

The definitions below are a shallow embedding of the Python modules
`core/models.py`, `core/gear_math.py`, `core/geometry_generator.py` and
`core/gear_core.py`.  Python floats are modelled by `ℝ`, Python ints by `ℤ`
(`ℕ` for segmentation counts where the code requires positive counts), numpy
arrays by `List ℝ`, and raised exceptions by `Except` error values.  String
statuses and error messages are modelled by dedicated inductive types that
carry the information the strings carry.
-/

namespace FGPG

/-- Degrees to radians, mirroring `np.deg2rad`. -/
noncomputable def deg2rad (d : ℝ) : ℝ := d * Real.pi / 180

/-! ## Data model (`core/models.py`) -/

/-- Embeds `models.GearSpec` (teeth, profile shift).  The constructor-time
validation (`teeth ≠ 0`) is modelled by `GearSpec.valid` below. -/
structure GearSpec where
  teeth : ℤ
  profile_shift : ℝ

/-- The `GearSpec.__post_init__` validation: teeth count must be non-zero. -/
def GearSpec.valid (g : GearSpec) : Prop := g.teeth ≠ 0

/-- Embeds `models.SegmentationSettings`: the five per-curve sample counts. -/
structure SegmentationSettings where
  involute : ℤ
  edge : ℤ
  root_round : ℤ
  outer : ℤ
  root : ℤ

/-- The `SegmentationSettings.__post_init__` validation: all counts positive. -/
def SegmentationSettings.valid (s : SegmentationSettings) : Prop :=
  0 < s.involute ∧ 0 < s.edge ∧ 0 < s.root_round ∧ 0 < s.outer ∧ 0 < s.root

/-- Embeds `models.GearPairParameters`. -/
structure GearPairParameters where
  module : ℝ
  pressure_angle_deg : ℝ
  backlash_factor : ℝ
  addendum_factor : ℝ
  dedendum_factor : ℝ
  hob_edge_radius : ℝ
  tooth_edge_radius : ℝ
  driver : GearSpec
  driven : GearSpec
  segmentation : SegmentationSettings
  center_x : ℝ
  center_y : ℝ

/-- A `GearPairParameters` value accepted at construction: the
`__post_init__` checks of the aggregate and of its components all pass
(`module > 0`, pressure angle in the open interval (0,90), non-zero teeth,
positive segmentation counts). -/
def GearPairParameters.valid (p : GearPairParameters) : Prop :=
  0 < p.module ∧ 0 < p.pressure_angle_deg ∧ p.pressure_angle_deg < 90 ∧
    p.driver.valid ∧ p.driven.valid ∧ p.segmentation.valid

/-- The legacy flat map produced by `GearPairParameters.to_calculation_dict`.
The Python dict has a fixed key set; it is modelled as a record with one
field per key, typed by the kind of number the code stores there. -/
structure CalcDict where
  M : ℝ
  Z : ℤ
  ALPHA : ℝ
  X : ℝ
  B : ℝ
  A : ℝ
  D : ℝ
  C : ℝ
  E : ℝ
  SEG_INVOLUTE : ℤ
  SEG_EDGE_R : ℤ
  SEG_ROOT_R : ℤ
  SEG_OUTER : ℤ
  SEG_ROOT : ℤ
  z2 : ℤ
  x2 : ℝ
  X_0 : ℝ
  Y_0 : ℝ

/-- Embeds `GearPairParameters.to_calculation_dict`. -/
def to_calculation_dict (p : GearPairParameters) : CalcDict where
  M := p.module
  Z := p.driver.teeth
  ALPHA := p.pressure_angle_deg
  X := p.driver.profile_shift
  B := p.backlash_factor
  A := p.addendum_factor
  D := p.dedendum_factor
  C := p.hob_edge_radius
  E := p.tooth_edge_radius
  SEG_INVOLUTE := p.segmentation.involute
  SEG_EDGE_R := p.segmentation.edge
  SEG_ROOT_R := p.segmentation.root_round
  SEG_OUTER := p.segmentation.outer
  SEG_ROOT := p.segmentation.root
  z2 := p.driven.teeth
  x2 := p.driven.profile_shift
  X_0 := p.center_x
  Y_0 := p.center_y

/-- The validation errors raised while rebuilding a `GearPairParameters`
from the legacy map (the `ValueError`s of the dataclass validators). -/
inductive ValidationError where
  | segmentationNotPositive
  | teethZero
  | moduleNotPositive
  | pressureAngleOutOfRange
deriving DecidableEq

/-- Embeds `GearPairParameters.from_dict`: rebuilds the structured value,
running the component validations in Python evaluation order
(`SegmentationSettings` first, then the two `GearSpec`s, then the aggregate
`__post_init__`).  A raised `ValueError` is modelled as `Except.error`. -/
noncomputable def from_dict (d : CalcDict) : Except ValidationError GearPairParameters :=
  if d.SEG_INVOLUTE ≤ 0 then .error .segmentationNotPositive
  else if d.SEG_EDGE_R ≤ 0 then .error .segmentationNotPositive
  else if d.SEG_ROOT_R ≤ 0 then .error .segmentationNotPositive
  else if d.SEG_OUTER ≤ 0 then .error .segmentationNotPositive
  else if d.SEG_ROOT ≤ 0 then .error .segmentationNotPositive
  else if d.Z = 0 then .error .teethZero
  else if d.z2 = 0 then .error .teethZero
  else if d.M ≤ 0 then .error .moduleNotPositive
  else if ¬(0 < d.ALPHA ∧ d.ALPHA < 90) then .error .pressureAngleOutOfRange
  else .ok
    { module := d.M
      pressure_angle_deg := d.ALPHA
      backlash_factor := d.B
      addendum_factor := d.A
      dedendum_factor := d.D
      hob_edge_radius := d.C
      tooth_edge_radius := d.E
      driver := { teeth := d.Z, profile_shift := d.X }
      driven := { teeth := d.z2, profile_shift := d.x2 }
      segmentation :=
        { involute := d.SEG_INVOLUTE
          edge := d.SEG_EDGE_R
          root_round := d.SEG_ROOT_R
          outer := d.SEG_OUTER
          root := d.SEG_ROOT }
      center_x := d.X_0
      center_y := d.Y_0 }

/-! ## Gear mathematics (`core/gear_math.py`) -/

/-- Embeds `gear_math.inv`: the involute function tan(α) − α. -/
noncomputable def inv (alpha_rad : ℝ) : ℝ := Real.tan alpha_rad - alpha_rad

/-- The `for _ in range(10)` Newton–Raphson loop body of
`calculate_operating_pressure_angle`, with the remaining iteration count as
fuel.  Each pass computes `function_val` and `derivative`, breaks out when
`|derivative| < 1e-9`, and otherwise applies the Newton update. -/
noncomputable def op_angle_loop (inv_alpha_w : ℝ) : ℕ → ℝ → ℝ
  | 0, alpha_w => alpha_w
  | n + 1, alpha_w =>
    if |Real.tan alpha_w ^ 2| < 1 / 1000000000 then alpha_w
    else op_angle_loop inv_alpha_w n
      (alpha_w - (inv alpha_w - inv_alpha_w) / Real.tan alpha_w ^ 2)

/-- Embeds `gear_math.calculate_operating_pressure_angle`. -/
noncomputable def calculate_operating_pressure_angle
    (z1 z2 : ℤ) (x1 x2 alpha_deg : ℝ) : ℝ :=
  let alpha_rad := deg2rad alpha_deg
  let inv_alpha_w := inv alpha_rad +
    2 * (x1 + x2) * Real.tan alpha_rad / ((z1 : ℝ) + (z2 : ℝ))
  op_angle_loop inv_alpha_w 10 alpha_rad

/-- The center distance `module * (z1 + z2) / 2 * (cos α / cos αw)` computed
at line 54 of `gear_math.calculate_contact_ratio`. -/
noncomputable def contact_center_distance
    (module : ℝ) (z1 z2 : ℤ) (x1 x2 alpha_deg : ℝ) : ℝ :=
  module * ((z1 : ℝ) + (z2 : ℝ)) / 2 *
    (Real.cos (deg2rad alpha_deg) /
      Real.cos (calculate_operating_pressure_angle z1 z2 x1 x2 alpha_deg))

/-- The radicand `addendum_radius² − base_radius²` computed for one gear at
lines 56-63 of `gear_math.calculate_contact_ratio`. -/
noncomputable def contact_val (module : ℝ) (z : ℤ) (x alpha_deg a1 : ℝ) : ℝ :=
  (module * ((z : ℝ) / 2 + a1 + x)) ^ 2 -
    (module * (z : ℝ) * Real.cos (deg2rad alpha_deg) / 2) ^ 2

/-- The path-of-contact length `√val1 + √val2 − C·sin(αw)` from line 67 of
`gear_math.calculate_contact_ratio`. -/
noncomputable def path_of_contact
    (module : ℝ) (z1 z2 : ℤ) (x1 x2 alpha_deg a1 : ℝ) : ℝ :=
  Real.sqrt (contact_val module z1 x1 alpha_deg a1) +
    Real.sqrt (contact_val module z2 x2 alpha_deg a1) -
    contact_center_distance module z1 z2 x1 x2 alpha_deg *
      Real.sin (calculate_operating_pressure_angle z1 z2 x1 x2 alpha_deg)

/-- Embeds `gear_math.calculate_contact_ratio`, returning the pair
(contact ratio, center distance).  The default argument `a1=1.0` of the
Python signature is made explicit; every in-repo caller passes it. -/
noncomputable def calculate_contact_ratio
    (module : ℝ) (z1 z2 : ℤ) (x1 x2 alpha_deg a1 : ℝ) : ℝ × ℝ :=
  if contact_val module z1 x1 alpha_deg a1 < 0 ∨
      contact_val module z2 x2 alpha_deg a1 < 0 then
    (0, contact_center_distance module z1 z2 x1 x2 alpha_deg)
  else
    (path_of_contact module z1 z2 x1 x2 alpha_deg a1 /
        (module * Real.pi * Real.cos (deg2rad alpha_deg)),
      contact_center_distance module z1 z2 x1 x2 alpha_deg)

/-- The undercut status returned by `gear_math.check_undercut`.  The Python
function returns strings; the `warning` constructor carries the `x_min`
value that the warning string reports. -/
inductive UndercutStatus where
  | ok
  | warning (x_min : ℝ)
  | notApplicable

/-- Embeds `gear_math.check_undercut`. -/
noncomputable def check_undercut
    (teeth : ℤ) (pressure_angle_deg profile_shift addendum : ℝ) : UndercutStatus :=
  if teeth ≤ 0 then .notApplicable
  else if profile_shift <
      addendum - ((teeth : ℝ) / 2) * Real.sin (deg2rad pressure_angle_deg) ^ 2 then
    .warning (addendum - ((teeth : ℝ) / 2) * Real.sin (deg2rad pressure_angle_deg) ^ 2)
  else .ok

/-- Embeds `gear_math.handle_internal_gear_parameters`.  The Python
`int(...)`/`float(...)` coercions at the end are identities on the typed
values. -/
def handle_internal_gear_parameters
    (teeth : ℤ) (profile_shift backlash_factor addendum_factor dedendum_factor
      hob_edge_radius tooth_edge_radius : ℝ) :
    ℤ × ℝ × ℝ × ℝ × ℝ × ℝ × ℝ :=
  if teeth < 0 then
    (-teeth, -profile_shift, -backlash_factor, dedendum_factor, addendum_factor,
      tooth_edge_radius, hob_edge_radius)
  else
    (teeth, profile_shift, backlash_factor, addendum_factor, dedendum_factor,
      hob_edge_radius, tooth_edge_radius)

/-- Embeds `gear_math.calculate_gear_parameters`: the nine derived angular
parameters used to build a tooth profile.  The two `max(..., 0)` radicand
clamps and the conditional tip-radius correction are reproduced verbatim. -/
noncomputable def calculate_gear_parameters
    (_module : ℝ) (teeth : ℤ) (pressure_angle_deg profile_shift backlash_factor
      addendum_factor dedendum_factor hob_edge_radius tooth_edge_radius : ℝ) :
    ℝ × ℝ × ℝ × ℝ × ℝ × ℝ × ℝ × ℝ × ℝ :=
  let base_pressure_angle := deg2rad pressure_angle_deg
  let tooth_center_angle := Real.pi / (teeth : ℝ)
  let half_tooth_center_angle := tooth_center_angle / 2
  let pitch_angle := 2 * Real.pi / (teeth : ℝ)
  let mid_tooth_angle := tooth_center_angle
  let involute_start_angle := base_pressure_angle + half_tooth_center_angle +
    backlash_factor / ((teeth : ℝ) * Real.cos base_pressure_angle) -
    (1 + 2 * profile_shift / (teeth : ℝ)) * Real.sin base_pressure_angle /
      Real.cos base_pressure_angle
  let involute_theta_start := Real.tan base_pressure_angle +
    2 * (hob_edge_radius * (1 - Real.sin base_pressure_angle) + profile_shift -
        dedendum_factor) /
      ((teeth : ℝ) * Real.cos base_pressure_angle * Real.sin base_pressure_angle)
  let sqrt_val_ie := max
    ((((teeth : ℝ) + 2 * (profile_shift + addendum_factor - tooth_edge_radius)) /
        ((teeth : ℝ) * Real.cos base_pressure_angle)) ^ 2 - 1) 0
  let involute_theta_end :=
    2 * tooth_edge_radius / ((teeth : ℝ) * Real.cos base_pressure_angle) +
      Real.sqrt sqrt_val_ie
  let sqrt_val_ae := max
    ((((teeth : ℝ) + 2 * (profile_shift + addendum_factor - tooth_edge_radius)) /
        ((teeth : ℝ) * Real.cos base_pressure_angle)) ^ 2 - 1) 0
  let edge_angle := involute_start_angle + involute_theta_end -
    Real.arctan (Real.sqrt sqrt_val_ae)
  let tooth_edge_corrected :=
    if mid_tooth_angle < edge_angle ∧
        involute_start_angle + involute_theta_end - Real.arctan involute_theta_end <
          mid_tooth_angle then
      let sqrt_val_e := max
        ((1 / Real.cos (involute_start_angle + involute_theta_end - mid_tooth_angle)) ^ 2
          - 1) 0
      (tooth_edge_radius / 2) * Real.cos base_pressure_angle *
        (involute_theta_end - Real.sqrt sqrt_val_e)
    else tooth_edge_radius
  let alignment_angle := Real.pi / 2 - tooth_center_angle
  (base_pressure_angle, mid_tooth_angle, involute_start_angle,
    involute_theta_start, involute_theta_end, edge_angle, tooth_edge_corrected,
    pitch_angle, alignment_angle)

/-! ## Geometry generation (`core/geometry_generator.py`) -/

/-- Embeds `np.linspace(a, b, n)` (endpoint included): `n` uniformly spaced
samples from `a` to `b`. -/
noncomputable def linspace (a b : ℝ) (n : ℕ) : List ℝ :=
  (List.range n).map fun i => if n ≤ 1 then a else a + (b - a) * (i : ℝ) / ((n : ℝ) - 1)

/-- Embeds `geometry_generator.involute_curve`. -/
noncomputable def involute_curve
    (module : ℝ) (teeth : ℤ) (segment_count : ℕ)
    (theta_start theta_end base_angle start_angle : ℝ) : List ℝ × List ℝ :=
  let theta_values := linspace theta_start theta_end segment_count
  let radius := fun θ : ℝ =>
    0.5 * module * (teeth : ℝ) * Real.cos base_angle * Real.sqrt (1 + θ ^ 2)
  (theta_values.map fun θ => radius θ * Real.cos (start_angle + θ - Real.arctan θ),
    theta_values.map fun θ => radius θ * Real.sin (start_angle + θ - Real.arctan θ))

/-- Embeds `np.arctan2(y, x)`: the angle of the point `(x, y)` in (−π, π],
with `arctan2 0 0 = 0`. -/
noncomputable def arctan2 (y x : ℝ) : ℝ := Complex.arg ⟨x, y⟩

/-- Embeds `geometry_generator.edge_round_curve`.  The numpy index
`flank_x[-1]` (last sample of the involute flank) is modelled with
`List.getLastD`, defaulting to 0 on the empty list. -/
noncomputable def edge_round_curve
    (module tooth_edge_radius : ℝ) (flank_x flank_y : List ℝ)
    (edge_x edge_y edge_center_x edge_center_y : ℝ) (segment_count : ℕ) :
    List ℝ × List ℝ :=
  let theta_min := arctan2 (flank_y.getLastD 0 - edge_center_y)
    (flank_x.getLastD 0 - edge_center_x)
  let theta_max := arctan2 (edge_y - edge_center_y) (edge_x - edge_center_x)
  let theta_values := linspace theta_min theta_max segment_count
  (theta_values.map fun θ => module * tooth_edge_radius * Real.cos θ + edge_center_x,
    theta_values.map fun θ => module * tooth_edge_radius * Real.sin θ + edge_center_y)

/-- The auxiliary angle `theta_s` computed at lines 66-72 of
`geometry_generator.root_round_curve` for one sample `θ`.  The numpy code
selects the branch once for the whole array; the branch condition does not
depend on `θ`, so the per-sample view is equivalent. -/
noncomputable def root_theta_s
    (module : ℝ) (teeth : ℤ)
    (profile_shift dedendum_factor hob_edge_radius θ : ℝ) : ℝ :=
  if hob_edge_radius ≠ 0 ∧
      module * (dedendum_factor - profile_shift - hob_edge_radius) = 0 then
    Real.pi / 2
  else if module * (dedendum_factor - profile_shift - hob_edge_radius) ≠ 0 then
    Real.arctan ((module * (teeth : ℝ) * θ / 2) /
      (module * (dedendum_factor - profile_shift - hob_edge_radius)))
  else 0

/-- Embeds `geometry_generator.root_round_curve` (the trochoidal root
fillet).  The `backlash_factor` parameter is unused by the body, exactly as
in the source. -/
noncomputable def root_round_curve
    (module : ℝ) (teeth : ℤ)
    (profile_shift dedendum_factor hob_edge_radius _backlash_factor
      theta_end alpha_transition : ℝ) (segment_count : ℕ) : List ℝ × List ℝ :=
  let theta_values := linspace 0 theta_end segment_count
  let ts := fun θ : ℝ =>
    root_theta_s module teeth profile_shift dedendum_factor hob_edge_radius θ
  (theta_values.map fun θ => module *
      (((teeth : ℝ) / 2 + profile_shift - dedendum_factor + hob_edge_radius) *
          Real.cos (θ + alpha_transition) +
        ((teeth : ℝ) / 2) * θ * Real.sin (θ + alpha_transition) -
        hob_edge_radius * Real.cos (ts θ + θ + alpha_transition)),
    theta_values.map fun θ => module *
      (((teeth : ℝ) / 2 + profile_shift - dedendum_factor + hob_edge_radius) *
          Real.sin (θ + alpha_transition) -
        ((teeth : ℝ) / 2) * θ * Real.cos (θ + alpha_transition) -
        hob_edge_radius * Real.sin (ts θ + θ + alpha_transition)))

/-- Embeds `geometry_generator.outer_arc` (addendum-circle cap). -/
noncomputable def outer_arc
    (module : ℝ) (teeth : ℤ) (profile_shift addendum_factor edge_angle mid_angle : ℝ)
    (segment_count : ℕ) : List ℝ × List ℝ :=
  let theta_values := linspace edge_angle mid_angle segment_count
  let radius := module * ((teeth : ℝ) / 2 + addendum_factor + profile_shift)
  (theta_values.map fun θ => radius * Real.cos θ,
    theta_values.map fun θ => radius * Real.sin θ)

/-- Embeds `geometry_generator.root_arc` (dedendum-circle cap). -/
noncomputable def root_arc
    (module : ℝ) (teeth : ℤ) (profile_shift dedendum_factor transition_angle : ℝ)
    (segment_count : ℕ) : List ℝ × List ℝ :=
  let theta_values := linspace 0 transition_angle segment_count
  let radius := module * ((teeth : ℝ) / 2 - dedendum_factor + profile_shift)
  (theta_values.map fun θ => radius * Real.cos θ,
    theta_values.map fun θ => radius * Real.sin θ)

/-- Modelled from the spec: `transformations.reflect_y` (the module
`core/transformations.py` is not under `src/`; spec section 4.5 states the
reflection about the x-axis negates the y coordinate and keeps x). -/
def reflect_y (xs ys : List ℝ) : List ℝ × List ℝ := (xs, ys.map fun v => -v)

/-- Embeds `geometry_generator.combine_tooth_profile`.  The function only
slices (`[1:]`, i.e. `List.tail`) and concatenates its argument arrays, so
it is stated polymorphically in the element type; the pipeline instantiates
it at `ℝ`. -/
def combine_tooth_profile {α : Type}
    (flank1_x flank1_y edge1_x edge1_y root1_x root1_y outer1_x outer1_y
      root_arc1_x root_arc1_y flank2_x flank2_y edge2_x edge2_y root2_x root2_y
      outer2_x outer2_y root_arc2_x root_arc2_y : List α) : List α × List α :=
  (outer2_x.tail ++ edge2_x.tail ++ flank2_x.tail ++ root2_x.tail ++
      root_arc2_x.tail ++ root_arc1_x ++ root1_x.tail ++ flank1_x.tail ++
      edge1_x.tail ++ outer1_x.tail,
    outer2_y.tail ++ edge2_y.tail ++ flank2_y.tail ++ root2_y.tail ++
      root_arc2_y.tail ++ root_arc1_y ++ root1_y.tail ++ flank1_y.tail ++
      edge1_y.tail ++ outer1_y.tail)

/-- Embeds `geometry_generator._generate_tooth_profile_impl`: normalizes
internal-gear parameters, derives the angular parameters, builds the five
curve families and their mirrors, and assembles the tooth profile.  Returns
`(tooth_x, tooth_y, float(teeth_calc), pitch_angle, alignment_angle)`. -/
noncomputable def generate_tooth_profile_impl
    (module : ℝ) (teeth : ℤ) (pressure_angle_deg profile_shift backlash_factor
      addendum_factor dedendum_factor hob_edge_radius tooth_edge_radius : ℝ)
    (segments_involute segments_edge segments_root_round segments_outer
      segments_root : ℕ) : List ℝ × List ℝ × ℝ × ℝ × ℝ :=
  let ⟨teeth_calc, shift_calc, backlash_calc, addendum_calc, dedendum_calc,
      hob_edge_calc, tooth_edge_calc0⟩ :=
    handle_internal_gear_parameters teeth profile_shift backlash_factor
      addendum_factor dedendum_factor hob_edge_radius tooth_edge_radius
  let ⟨base_angle, mid_angle, involute_start_angle, involute_theta_start,
      involute_theta_end, edge_angle, tooth_edge_calc, pitch_angle,
      alignment_angle⟩ :=
    calculate_gear_parameters module teeth_calc pressure_angle_deg shift_calc
      backlash_calc addendum_calc dedendum_calc hob_edge_calc tooth_edge_calc0
  let flank1 := involute_curve module teeth_calc segments_involute
    involute_theta_start involute_theta_end base_angle involute_start_angle
  let flank2 := reflect_y flank1.1 flank1.2
  let edge_x := module * (((teeth_calc : ℝ) / 2) + shift_calc + addendum_calc) *
    Real.cos edge_angle
  let edge_y := module * (((teeth_calc : ℝ) / 2) + shift_calc + addendum_calc) *
    Real.sin edge_angle
  let edge_center_x := module *
    ((teeth_calc : ℝ) / 2 + shift_calc + addendum_calc - tooth_edge_calc) *
    Real.cos edge_angle
  let edge_center_y := module *
    ((teeth_calc : ℝ) / 2 + shift_calc + addendum_calc - tooth_edge_calc) *
    Real.sin edge_angle
  let edge1 := edge_round_curve module tooth_edge_calc flank1.1 flank1.2
    edge_x edge_y edge_center_x edge_center_y segments_edge
  let edge2 := reflect_y edge1.1 edge1.2
  let alpha_transition :=
    (2 * (hob_edge_calc * (1 - Real.sin base_angle) - dedendum_calc) *
          Real.sin base_angle + backlash_calc) /
        ((teeth_calc : ℝ) * Real.cos base_angle) -
      2 * hob_edge_calc * Real.cos base_angle / (teeth_calc : ℝ) +
      Real.pi / (2 * (teeth_calc : ℝ))
  let theta_end :=
    2 * hob_edge_calc * Real.cos base_angle / (teeth_calc : ℝ) -
      2 * (dedendum_calc - shift_calc - hob_edge_calc * (1 - Real.sin base_angle)) *
        Real.cos base_angle / ((teeth_calc : ℝ) * Real.sin base_angle)
  let root1 := root_round_curve module teeth_calc shift_calc dedendum_calc
    hob_edge_calc backlash_calc theta_end alpha_transition segments_root_round
  let root2 := reflect_y root1.1 root1.2
  let outer1 := outer_arc module teeth_calc shift_calc addendum_calc edge_angle
    mid_angle segments_outer
  let outer2 := reflect_y outer1.1 outer1.2
  let root_arc1 := root_arc module teeth_calc shift_calc dedendum_calc
    alpha_transition segments_root
  let root_arc2 := reflect_y root_arc1.1 root_arc1.2
  let tooth := combine_tooth_profile flank1.1 flank1.2 edge1.1 edge1.2 root1.1
    root1.2 outer1.1 outer1.2 root_arc1.1 root_arc1.2 flank2.1 flank2.2 edge2.1
    edge2.2 root2.1 root2.2 outer2.1 outer2.2 root_arc2.1 root_arc2.2
  (tooth.1, tooth.2, (teeth_calc : ℝ), pitch_angle, alignment_angle)

/-- The errors raised by the `generate_tooth_profile` wrapper.  All three
are Python `TypeError`s; the constructors record which one:
`missingKey k` is the f-string naming the first missing legacy key,
`wrongPositionalCount` is the explicit guard message for `len(args) != 13`,
and `implBindingMismatch` is the interpreter-level binding failure when the
guard passes 13 positional arguments on to the 14-parameter
`_generate_tooth_profile_impl`. -/
inductive DispatchError where
  | missingKey (key : String)
  | wrongPositionalCount
  | implBindingMismatch
deriving DecidableEq

/-- The fixed iteration order of `key_map` in
`geometry_generator.generate_tooth_profile` (Python dict literals preserve
insertion order). -/
def legacy_key_order : List String :=
  ["M", "Z", "ALPHA", "X", "B", "A", "D", "C", "E", "SEG_INVOLUTE",
    "SEG_EDGE_R", "SEG_ROOT_R", "SEG_OUTER", "SEG_ROOT"]

/-- The first legacy key absent from the keyword map, scanning in
`key_map` order — the key the wrapper's error message names. -/
def first_missing_key {α : Type} (kwargs : List (String × α)) : Option String :=
  legacy_key_order.find? fun k => (kwargs.lookup k).isNone

/-- The keyword-argument record that `generate_tooth_profile` hands to
`_generate_tooth_profile_impl` after renaming the legacy keys.  Stated
polymorphically in the value type: the wrapper moves values without
inspecting them. -/
structure NormalizedArgs (α : Type) where
  module : α
  teeth : α
  pressure_angle_deg : α
  profile_shift : α
  backlash_factor : α
  addendum_factor : α
  dedendum_factor : α
  hob_edge_radius : α
  tooth_edge_radius : α
  segments_involute : α
  segments_edge : α
  segments_root_round : α
  segments_outer : α
  segments_root : α
deriving DecidableEq

/-- Embeds the argument resolution of
`geometry_generator.generate_tooth_profile` (lines 329-362).  `Except.ok`
carries the argument record on which `_generate_tooth_profile_impl` is then
invoked.  The keyword path takes precedence whenever `kwargs` is non-empty
(`if kwargs:`), silently ignoring any positional arguments.  The positional
path first enforces `len(args) == 13`; a call that passes that guard still
fails, because `_generate_tooth_profile_impl` takes 14 parameters, so the
positional path never reaches the implementation. -/
def generate_tooth_profile_dispatch {α : Type} [Inhabited α]
    (args : List α) (kwargs : List (String × α)) :
    Except DispatchError (NormalizedArgs α) :=
  match kwargs with
  | [] =>
    if args.length ≠ 13 then .error .wrongPositionalCount
    else .error .implBindingMismatch
  | _ :: _ =>
    match first_missing_key kwargs with
    | some k => .error (.missingKey k)
    | none =>
      let get := fun k => (kwargs.lookup k).getD default
      .ok ⟨get "M", get "Z", get "ALPHA", get "X", get "B", get "A", get "D",
        get "C", get "E", get "SEG_INVOLUTE", get "SEG_EDGE_R", get "SEG_ROOT_R",
        get "SEG_OUTER", get "SEG_ROOT"⟩

/-! ## Pair orchestrator (`core/gear_core.py`) -/

/-- The analysis pair computed at lines 34-42 of
`gear_core.generate_gear_pair`: `calculate_contact_ratio` applied to the
legacy-map fields of the parameters.  First component: contact ratio;
second: center distance. -/
noncomputable def gear_pair_analysis (p : GearPairParameters) : ℝ × ℝ :=
  let cp := to_calculation_dict p
  calculate_contact_ratio cp.M cp.Z cp.z2 cp.X cp.x2 cp.ALPHA cp.A

/-- The driver gear's undercut status computed at lines 44-46 of
`gear_core.generate_gear_pair`: note the check receives the raw
`calc_params['Z']`, not a normalized teeth count. -/
noncomputable def gear_pair_status1 (p : GearPairParameters) : UndercutStatus :=
  let cp := to_calculation_dict p
  check_undercut cp.Z cp.ALPHA cp.X cp.A

/-- The driven gear's undercut status computed at lines 47-49 of
`gear_core.generate_gear_pair`, from the raw `calc_params['z2']`. -/
noncomputable def gear_pair_status2 (p : GearPairParameters) : UndercutStatus :=
  let cp := to_calculation_dict p
  check_undercut cp.z2 cp.ALPHA cp.x2 cp.A

/-- What `gear_core.generate_gear_pair` has computed when it reaches the two
`generate_tooth_profile` calls: the analysis pair, the two undercut
statuses, and the argument records resolved for the two profile calls. -/
structure GearPairOutcome where
  analysis : ℝ × ℝ
  status1 : UndercutStatus
  status2 : UndercutStatus
  gear1_args : NormalizedArgs ℝ
  gear2_args : NormalizedArgs ℝ

/-- Embeds `gear_core.generate_gear_pair` on structured input
(`_resolve_parameters` is the identity on a `GearPairParameters`).  The
analysis and statuses are computed first, then the two
`generate_tooth_profile` calls are made with 14 positional arguments each
(integer-valued entries cast to `ℝ`; the dispatch never inspects values).
A raised `TypeError` is modelled as `Except.error`. -/
noncomputable def generate_gear_pair (p : GearPairParameters) :
    Except DispatchError GearPairOutcome :=
  let cp := to_calculation_dict p
  do
    let g1 ← generate_tooth_profile_dispatch
      [cp.M, (cp.Z : ℝ), cp.ALPHA, cp.X, cp.B, cp.A, cp.D, cp.C, cp.E,
        (cp.SEG_INVOLUTE : ℝ), (cp.SEG_EDGE_R : ℝ), (cp.SEG_ROOT_R : ℝ),
        (cp.SEG_OUTER : ℝ), (cp.SEG_ROOT : ℝ)] []
    let g2 ← generate_tooth_profile_dispatch
      [cp.M, (cp.z2 : ℝ), cp.ALPHA, cp.x2, cp.B, cp.A, cp.D, cp.C, cp.E,
        (cp.SEG_INVOLUTE : ℝ), (cp.SEG_EDGE_R : ℝ), (cp.SEG_ROOT_R : ℝ),
        (cp.SEG_OUTER : ℝ), (cp.SEG_ROOT : ℝ)] []
    .ok ⟨gear_pair_analysis p, gear_pair_status1 p, gear_pair_status2 p, g1, g2⟩

/-! ## Spec-side formalisations (for refinement claims)

These definitions follow the wording of the specification / claims, to be
compared against the source-derived definitions above. -/

/-- Claim C5's description of the Newton–Raphson solve as a state machine:
the state carries a stopped flag and the current iterate; each of the 10
passes leaves a stopped state alone, stops when `|tan²(αw)| < 1e-9` at the
top of the iteration, and otherwise applies
`αw ← αw − (involute(αw) − inv_target)/tan²(αw)`. -/
noncomputable def spec_newton_go (inv_target : ℝ) : ℕ → Bool × ℝ → Bool × ℝ
  | 0, s => s
  | n + 1, s =>
    if s.1 then spec_newton_go inv_target n s
    else if |Real.tan s.2 ^ 2| < 1 / 1000000000 then
      spec_newton_go inv_target n (true, s.2)
    else
      spec_newton_go inv_target n
        (false, s.2 - (inv s.2 - inv_target) / Real.tan s.2 ^ 2)

/-- Claim C5's description of `calculate_operating_pressure_angle`:
target `involute(α) + 2(x1+x2)·tan(α)/(z1+z2)`, Newton–Raphson seeded at
`α` for at most 10 iterations, the final iterate returned unconditionally. -/
noncomputable def spec_operating_pressure_angle
    (z1 z2 : ℤ) (x1 x2 alpha_deg : ℝ) : ℝ :=
  let alpha_rad := deg2rad alpha_deg
  let inv_target := inv alpha_rad +
    2 * (x1 + x2) * Real.tan alpha_rad / ((z1 : ℝ) + (z2 : ℝ))
  (spec_newton_go inv_target 10 (false, alpha_rad)).2

/-- Claim C2's described assembly: nine segments, the first (`outer2`) taken
in full, `root-arc1` taken in full, every other segment contributing all of
its points except its first — and no `root1` (trochoid 1) segment at all. -/
def claimed_profile_assembly {α : Type}
    (outer2 edge2 flank2 root2 root_arc2 root_arc1 flank1 edge1 outer1 :
      List α) : List α :=
  outer2 ++ edge2.tail ++ flank2.tail ++ root2.tail ++ root_arc2.tail ++
    root_arc1 ++ flank1.tail ++ edge1.tail ++ outer1.tail

/-- The assembly order `combine_tooth_profile` actually implements: ten
segments, every segment's first point dropped except `root-arc1`, which is
taken in full — including the first listed segment `outer2`, whose first
point is also dropped — with `root1` between `root-arc1` and `flank1`. -/
def actual_profile_assembly {α : Type}
    (outer2 edge2 flank2 root2 root_arc2 root_arc1 root1 flank1 edge1 outer1 :
      List α) : List α :=
  outer2.tail ++ edge2.tail ++ flank2.tail ++ root2.tail ++ root_arc2.tail ++
    root_arc1 ++ root1.tail ++ flank1.tail ++ edge1.tail ++ outer1.tail

/-! ## Concrete inputs used by counterexamples and witnesses -/

/-- A complete legacy keyword map (distinct values tag the keys). -/
def full_legacy_kwargs : List (String × ℕ) :=
  [("M", 1), ("Z", 2), ("ALPHA", 3), ("X", 4), ("B", 5), ("A", 6), ("D", 7),
    ("C", 8), ("E", 9), ("SEG_INVOLUTE", 10), ("SEG_EDGE_R", 11),
    ("SEG_ROOT_R", 12), ("SEG_OUTER", 13), ("SEG_ROOT", 14)]

/-- A keyword map missing `ALPHA` (and everything after it). -/
def incomplete_legacy_kwargs : List (String × ℕ) := [("M", 1), ("Z", 2)]

/-- Construction-valid parameters with `addendum_factor = −1` (the scalar
validators only constrain module and pressure angle): pressure angle 60°,
two 10-tooth gears, zero profile shifts. -/
def negative_ratio_params : GearPairParameters where
  module := 1
  pressure_angle_deg := 60
  backlash_factor := 0
  addendum_factor := -1
  dedendum_factor := 1.25
  hob_edge_radius := 0.2
  tooth_edge_radius := 0.1
  driver := { teeth := 10, profile_shift := 0 }
  driven := { teeth := 10, profile_shift := 0 }
  segmentation := { involute := 10, edge := 10, root_round := 10, outer := 10, root := 10 }
  center_x := 0
  center_y := 0

/-- Construction-valid parameters whose teeth counts sum to −20 (internal
driver gear of −40 teeth against a 20-tooth pinion). -/
def negative_center_params : GearPairParameters where
  module := 1
  pressure_angle_deg := 60
  backlash_factor := 0
  addendum_factor := 1
  dedendum_factor := 1.25
  hob_edge_radius := 0.2
  tooth_edge_radius := 0.1
  driver := { teeth := -40, profile_shift := 0 }
  driven := { teeth := 20, profile_shift := 0 }
  segmentation := { involute := 10, edge := 10, root_round := 10, outer := 10, root := 10 }
  center_x := 0
  center_y := 0

/-- Construction-valid parameters with a standard external gear pair
(pressure angle 60° keeps the trigonometry exact in witnesses). -/
def standard_pair_params : GearPairParameters where
  module := 1
  pressure_angle_deg := 60
  backlash_factor := 0
  addendum_factor := 1
  dedendum_factor := 1.25
  hob_edge_radius := 0.2
  tooth_edge_radius := 0.1
  driver := { teeth := 10, profile_shift := 0 }
  driven := { teeth := 10, profile_shift := 0 }
  segmentation := { involute := 10, edge := 10, root_round := 10, outer := 10, root := 10 }
  center_x := 0
  center_y := 0

/-- Construction-valid parameters with an internal (negative-teeth) driver
gear, as produced by the GUI for internal gears. -/
def internal_driver_params : GearPairParameters where
  module := 1
  pressure_angle_deg := 20
  backlash_factor := 0
  addendum_factor := 1
  dedendum_factor := 1.25
  hob_edge_radius := 0.2
  tooth_edge_radius := 0.1
  driver := { teeth := -20, profile_shift := 0 }
  driven := { teeth := 20, profile_shift := 0 }
  segmentation := { involute := 10, edge := 10, root_round := 10, outer := 10, root := 10 }
  center_x := 0
  center_y := 0

/-- The headless-mode default parameter set of `main.py`, structured. -/
def roundtrip_params : GearPairParameters where
  module := 1
  pressure_angle_deg := 20
  backlash_factor := 0.05
  addendum_factor := 1
  dedendum_factor := 1.25
  hob_edge_radius := 0.2
  tooth_edge_radius := 0.1
  driver := { teeth := 18, profile_shift := 0.2 }
  driven := { teeth := 36, profile_shift := 0 }
  segmentation := { involute := 15, edge := 15, root_round := 15, outer := 5, root := 5 }
  center_x := 0
  center_y := 0

/-! ## Shared helper lemmas -/

/-- If the Newton target already equals `inv` of the current iterate, the
loop is at a fixed point: the update subtracts `0 / tan²`, so the iterate
never moves, whether or not the small-derivative break fires. -/
theorem op_angle_loop_fixed (a : ℝ) : ∀ n, op_angle_loop (inv a) n a = a := by
  intro n
  induction n with
  | zero => rfl
  | succ n ih =>
    unfold op_angle_loop
    split_ifs with h
    · rfl
    · rw [sub_self, zero_div, sub_zero]
      exact ih

/-- With both profile shifts zero the Newton target is `inv(α)` itself, so
the operating pressure angle equals the input pressure angle (in radians). -/
theorem calc_op_zero_shift (z1 z2 : ℤ) (alpha_deg : ℝ) :
    calculate_operating_pressure_angle z1 z2 0 0 alpha_deg = deg2rad alpha_deg := by
  simp only [calculate_operating_pressure_angle]
  have h : inv (deg2rad alpha_deg) +
      2 * ((0 : ℝ) + 0) * Real.tan (deg2rad alpha_deg) / ((z1 : ℝ) + (z2 : ℝ)) =
      inv (deg2rad alpha_deg) := by ring
  rw [h]
  exact op_angle_loop_fixed _ 10

theorem deg2rad_sixty : deg2rad 60 = Real.pi / 3 := by
  unfold deg2rad; ring

theorem deg2rad_twenty : deg2rad 20 = Real.pi / 9 := by
  unfold deg2rad; ring

/-- Pressure angles in (0°, 90°) convert to radians in (0, π/2), where the
cosine is positive. -/
theorem cos_deg2rad_pos {α : ℝ} (h0 : 0 < α) (h90 : α < 90) :
    0 < Real.cos (deg2rad α) := by
  apply Real.cos_pos_of_mem_Ioo
  unfold deg2rad
  constructor
  · nlinarith [Real.pi_pos]
  · nlinarith [Real.pi_pos]

/-- The second component of `calculate_contact_ratio` is the center
distance in both branches. -/
theorem calculate_contact_ratio_snd
    (module : ℝ) (z1 z2 : ℤ) (x1 x2 alpha_deg a1 : ℝ) :
    (calculate_contact_ratio module z1 z2 x1 x2 alpha_deg a1).2 =
      contact_center_distance module z1 z2 x1 x2 alpha_deg := by
  unfold calculate_contact_ratio
  split_ifs <;> rfl

/-! ## Claim C9 -/

/-- C9: `handle_internal_gear_parameters` negates teeth, profile shift and
backlash and swaps addendum↔dedendum and hob↔tooth edge radii when
`teeth < 0`, and returns all seven inputs unchanged when `teeth ≥ 0`; in
particular teeth=−20 with addendum 1.0, dedendum 1.25, hob edge 0.2, tooth
edge 0.1 normalizes to teeth=20, addendum 1.25, dedendum 1.0, hob edge 0.1,
tooth edge 0.2, with profile shift and backlash negated. -/
theorem C9_handle_internal_gear_parameters (teeth : ℤ) (x b a d c e : ℝ) :
    (teeth < 0 → handle_internal_gear_parameters teeth x b a d c e =
      (-teeth, -x, -b, d, a, e, c)) ∧
    (0 ≤ teeth → handle_internal_gear_parameters teeth x b a d c e =
      (teeth, x, b, a, d, c, e)) ∧
    handle_internal_gear_parameters (-20) x b 1 1.25 0.2 0.1 =
      (20, -x, -b, 1.25, 1, 0.1, 0.2) := by
  refine ⟨fun h => ?_, fun h => ?_, ?_⟩
  · simp only [handle_internal_gear_parameters]
    rw [if_pos h]
  · simp only [handle_internal_gear_parameters]
    rw [if_neg (not_lt.mpr h)]
  · simp only [handle_internal_gear_parameters]
    norm_num

theorem C9_witness :
    ((-5 : ℤ) < 0 ∧ handle_internal_gear_parameters (-5) 1 2 3 4 5 6 =
      (5, -1, -2, 4, 3, 6, 5)) ∧
    (0 ≤ (7 : ℤ) ∧ handle_internal_gear_parameters 7 1 2 3 4 5 6 =
      (7, 1, 2, 3, 4, 5, 6)) := by
  constructor
  · refine ⟨by decide, ?_⟩
    have h := (C9_handle_internal_gear_parameters (-5) 1 2 3 4 5 6).1 (by decide)
    norm_num at h ⊢
    exact h
  · refine ⟨by decide, ?_⟩
    exact (C9_handle_internal_gear_parameters 7 1 2 3 4 5 6).2.1 (by decide)

/-! ## Claim C5 -/

/-- Once stopped, the claim-side Newton state machine stays put. -/
theorem spec_newton_go_stopped (t : ℝ) : ∀ (n : ℕ) (a : ℝ),
    spec_newton_go t n (true, a) = (true, a) := by
  intro n
  induction n with
  | zero => intro a; rfl
  | succ n ih => intro a; unfold spec_newton_go; simp [ih]

/-- The source loop and the claim-side state machine compute the same
iterate for any fuel. -/
theorem op_angle_loop_eq_spec (t : ℝ) : ∀ (n : ℕ) (a : ℝ),
    op_angle_loop t n a = (spec_newton_go t n (false, a)).2 := by
  intro n
  induction n with
  | zero => intro a; rfl
  | succ n ih =>
    intro a
    unfold op_angle_loop spec_newton_go
    simp only [Bool.false_eq_true, if_false]
    split_ifs with h
    · rw [spec_newton_go_stopped]
    · exact ih _

/-- C5: `calculate_operating_pressure_angle` computes the target
`involute(α) + 2(x1+x2)·tan(α)/(z1+z2)` with α in radians, runs
Newton–Raphson seeded at α for at most 10 iterations of
`αw ← αw − (involute(αw) − inv_target)/tan²(αw)`, breaking out early
exactly when `|tan²(αw)| < 1e-9` at the top of an iteration, and returns
the final iterate unconditionally. -/
theorem C5_operating_pressure_angle_newton (z1 z2 : ℤ) (x1 x2 alpha_deg : ℝ)
    (_h : z1 + z2 ≠ 0) :
    calculate_operating_pressure_angle z1 z2 x1 x2 alpha_deg =
      spec_operating_pressure_angle z1 z2 x1 x2 alpha_deg := by
  simp only [calculate_operating_pressure_angle, spec_operating_pressure_angle]
  exact op_angle_loop_eq_spec _ 10 _

theorem C5_witness :
    (18 : ℤ) + 36 ≠ 0 ∧
    calculate_operating_pressure_angle 18 36 0.2 0 20 =
      spec_operating_pressure_angle 18 36 0.2 0 20 :=
  ⟨by decide, C5_operating_pressure_angle_newton 18 36 0.2 0 20 (by decide)⟩

/-! ## Claim C6 -/

/-- C6: whenever either gear's `addendum_radius² − base_radius²` radicand is
negative, `calculate_contact_ratio` returns contact ratio exactly 0 paired
with the center distance `module·(z1+z2)/2·cos(α)/cos(αw)` computed from
the operating pressure angle (and, being a total function, raises
nothing). -/
theorem C6_contact_ratio_degenerate
    (module : ℝ) (z1 z2 : ℤ) (x1 x2 alpha_deg a1 : ℝ)
    (h : contact_val module z1 x1 alpha_deg a1 < 0 ∨
      contact_val module z2 x2 alpha_deg a1 < 0) :
    calculate_contact_ratio module z1 z2 x1 x2 alpha_deg a1 =
      (0, module * ((z1 : ℝ) + (z2 : ℝ)) / 2 *
        (Real.cos (deg2rad alpha_deg) /
          Real.cos (calculate_operating_pressure_angle z1 z2 x1 x2 alpha_deg))) := by
  unfold calculate_contact_ratio
  rw [if_pos h]
  rfl

theorem C6_witness :
    contact_val 1 10 0 60 (-3) < 0 ∧
    calculate_contact_ratio 1 10 10 0 0 60 (-3) =
      (0, contact_center_distance 1 10 10 0 0 60) := by
  have hval : contact_val 1 10 0 60 (-3) < 0 := by
    unfold contact_val
    rw [deg2rad_sixty, Real.cos_pi_div_three]
    norm_num
  exact ⟨hval, C6_contact_ratio_degenerate 1 10 10 0 0 60 (-3) (Or.inl hval)⟩

/-! ## Claim C4 -/

/-- C4 counterexample: the claim states that a zero hob edge radius forces
the auxiliary angle to 0, but with hob edge radius 0 and a non-zero
denominator (module 1, teeth 2, shift 0, dedendum 1, sample θ = 1) the code
takes the `arctan` branch and computes `arctan 1 = π/4 ≠ 0`. -/
theorem C4_counterexample :
    root_theta_s 1 2 0 1 0 1 = Real.arctan 1 ∧ Real.arctan 1 ≠ 0 := by
  constructor
  · unfold root_theta_s
    rw [if_neg (by norm_num), if_pos (by norm_num : (1 : ℝ) * (1 - 0 - 0) ≠ 0)]
    norm_num
  · rw [Real.arctan_one]
    positivity

/-- C4 amended: in `root_round_curve`, for every input and sample, the
auxiliary angle `theta_s` is π/2 when the hob edge radius is non-zero and
the denominator `module·(dedendum − shift − hob_radius)` is zero; it is
`arctan((module·teeth·θ/2)/denominator)` whenever the denominator is
non-zero (also when the hob edge radius is zero); and it is 0 only when the
hob edge radius and the denominator are both zero. -/
theorem C4_root_theta_s_branches (m : ℝ) (z : ℤ) (x d c θ : ℝ) :
    (c ≠ 0 ∧ m * (d - x - c) = 0 → root_theta_s m z x d c θ = Real.pi / 2) ∧
    (m * (d - x - c) ≠ 0 → root_theta_s m z x d c θ =
      Real.arctan ((m * (z : ℝ) * θ / 2) / (m * (d - x - c)))) ∧
    (c = 0 ∧ m * (d - x - c) = 0 → root_theta_s m z x d c θ = 0) := by
  unfold root_theta_s
  split_ifs with h1 h2
  · exact ⟨fun _ => rfl, fun hd => absurd h1.2 hd, fun hc => absurd hc.1 h1.1⟩
  · exact ⟨fun hcd => absurd hcd.2 h2, fun _ => rfl, fun hc => absurd hc.2 h2⟩
  · exact ⟨fun hcd => absurd hcd h1, fun hd => absurd hd h2, fun _ => rfl⟩

theorem C4_witness :
    ((0.2 : ℝ) ≠ 0 ∧ (1 : ℝ) * (1.2 - 1 - 0.2) = 0) ∧
    root_theta_s 1 20 1 1.2 0.2 0.5 = Real.pi / 2 := by
  have h : (0.2 : ℝ) ≠ 0 ∧ (1 : ℝ) * (1.2 - 1 - 0.2) = 0 := by norm_num
  exact ⟨h, (C4_root_theta_s_branches 1 20 1 1.2 0.2 0.5).1 h⟩

/-! ## Claim C2 -/

/-- C2 counterexample: on concrete two-point segments, the assembled
profile differs from the claim's described assembly (the code drops
`outer2`'s first point and includes a `root1` segment the claim omits). -/
theorem C2_counterexample :
    (combine_tooth_profile [1, 2] [1, 2] [3, 4] [3, 4] [5, 6] [5, 6] [7, 8]
        [7, 8] [9, 10] [9, 10] [11, 12] [11, 12] [13, 14] [13, 14] [15, 16]
        [15, 16] [17, 18] [17, 18] [19, 20] [19, 20]).1 ≠
      claimed_profile_assembly [17, 18] [13, 14] [11, 12] [15, 16] [19, 20]
        [9, 10] ([1, 2] : List ℕ) [3, 4] [7, 8] := by
  decide

/-- C2 amended: `combine_tooth_profile` concatenates the ten mirrored
segments in the fixed order outer2, edge2, flank2, root-trochoid2,
root-arc2, root-arc1, root-trochoid1, flank1, edge1, outer1, with every
segment contributing all of its points except its first — including the
first listed segment outer2 — except root-arc1, which contributes all of
its points. -/
theorem C2_combine_tooth_profile_order {α : Type}
    (flank1_x flank1_y edge1_x edge1_y root1_x root1_y outer1_x outer1_y
      root_arc1_x root_arc1_y flank2_x flank2_y edge2_x edge2_y root2_x
      root2_y outer2_x outer2_y root_arc2_x root_arc2_y : List α) :
    combine_tooth_profile flank1_x flank1_y edge1_x edge1_y root1_x root1_y
        outer1_x outer1_y root_arc1_x root_arc1_y flank2_x flank2_y edge2_x
        edge2_y root2_x root2_y outer2_x outer2_y root_arc2_x root_arc2_y =
      (actual_profile_assembly outer2_x edge2_x flank2_x root2_x root_arc2_x
          root_arc1_x root1_x flank1_x edge1_x outer1_x,
        actual_profile_assembly outer2_y edge2_y flank2_y root2_y root_arc2_y
          root_arc1_y root1_y flank1_y edge1_y outer1_y) :=
  rfl

/-! ## Claim C7 -/

/-- C7 counterexample: a call mixing a positional argument with a complete
legacy keyword map is not rejected — the wrapper resolves the keyword map
and invokes the implementation, ignoring the positional argument. -/
theorem C7_counterexample :
    generate_tooth_profile_dispatch [(99 : ℕ)] full_legacy_kwargs =
      .ok ⟨1, 2, 3, 4, 5, 6, 7, 8, 9, 10, 11, 12, 13, 14⟩ :=
  rfl

/-- C7 amended: whenever keyword arguments are present, the wrapper (a)
fails naming the first missing legacy key, scanned in the fixed order M, Z,
ALPHA, X, B, A, D, C, E, SEG_INVOLUTE, SEG_EDGE_R, SEG_ROOT_R, SEG_OUTER,
SEG_ROOT, when the map is incomplete, and (b) ignores positional arguments
entirely (the result is the same as with no positional arguments); in
particular a mixed call with a complete legacy map is not rejected but
proceeds to the implementation. -/
theorem C7_legacy_dispatch {α : Type} [Inhabited α]
    (args : List α) (kwargs : List (String × α)) (hne : kwargs ≠ []) :
    (∀ k, first_missing_key kwargs = some k →
      generate_tooth_profile_dispatch args kwargs = .error (.missingKey k)) ∧
    generate_tooth_profile_dispatch args kwargs =
      generate_tooth_profile_dispatch [] kwargs ∧
    (first_missing_key kwargs = none →
      ∃ r, generate_tooth_profile_dispatch args kwargs = .ok r) := by
  match kwargs with
  | [] => exact absurd rfl hne
  | q :: t =>
    refine ⟨fun k hk => ?_, rfl, fun hk => ?_⟩
    · unfold generate_tooth_profile_dispatch
      rw [hk]
    · unfold generate_tooth_profile_dispatch
      rw [hk]
      exact ⟨_, rfl⟩

theorem C7_witness :
    (incomplete_legacy_kwargs ≠ [] ∧
      first_missing_key incomplete_legacy_kwargs = some "ALPHA" ∧
      generate_tooth_profile_dispatch [(42 : ℕ)] incomplete_legacy_kwargs =
        .error (.missingKey "ALPHA")) ∧
    (full_legacy_kwargs ≠ [] ∧ first_missing_key full_legacy_kwargs = none ∧
      ∃ r, generate_tooth_profile_dispatch [(42 : ℕ)] full_legacy_kwargs =
        .ok r) := by
  constructor
  · refine ⟨by decide, by decide, ?_⟩
    exact (C7_legacy_dispatch [(42 : ℕ)] incomplete_legacy_kwargs
      (by decide)).1 "ALPHA" (by decide)
  · refine ⟨by decide, by decide, ?_⟩
    exact (C7_legacy_dispatch [(42 : ℕ)] full_legacy_kwargs
      (by decide)).2.2 (by decide)

/-! ## Claim C3 -/

/-- C3 counterexample: a construction-valid parameter set with a negative
(internal-gear) driver teeth count.  The orchestrator invokes
`check_undercut` on the raw `calc_params['Z']` — internal-gear
normalization happens only later, inside profile generation — so the
`teeth ≤ 0` branch IS reached through the orchestrator and the driver's
undercut status is the NotApplicable value. -/
theorem C3_counterexample :
    internal_driver_params.valid ∧
    internal_driver_params.driver.teeth = -20 ∧
    gear_pair_status1 internal_driver_params = .notApplicable := by
  refine ⟨?_, rfl, rfl⟩
  refine ⟨?_, ?_, ?_, ?_, ?_, ?_⟩ <;>
    norm_num [internal_driver_params, GearSpec.valid, SegmentationSettings.valid]

/-- C3 amended: the orchestrator passes the raw (un-normalized) teeth
counts to the undercut check, so for each gear the check's NotApplicable
branch is taken through the orchestrator exactly when that gear's teeth
count is ≤ 0; for gears with positive teeth the status is never
NotApplicable. -/
theorem C3_undercut_status_reachability (p : GearPairParameters) :
    (0 < p.driver.teeth → gear_pair_status1 p ≠ .notApplicable) ∧
    (p.driver.teeth ≤ 0 → gear_pair_status1 p = .notApplicable) ∧
    (0 < p.driven.teeth → gear_pair_status2 p ≠ .notApplicable) ∧
    (p.driven.teeth ≤ 0 → gear_pair_status2 p = .notApplicable) := by
  have h1 : gear_pair_status1 p =
      check_undercut p.driver.teeth p.pressure_angle_deg
        p.driver.profile_shift p.addendum_factor := rfl
  have h2 : gear_pair_status2 p =
      check_undercut p.driven.teeth p.pressure_angle_deg
        p.driven.profile_shift p.addendum_factor := rfl
  rw [h1, h2]
  unfold check_undercut
  refine ⟨fun h => ?_, fun h => by rw [if_pos h], fun h => ?_, fun h => by rw [if_pos h]⟩
  · rw [if_neg (not_le.mpr h)]
    split_ifs <;> exact fun hc => UndercutStatus.noConfusion hc
  · rw [if_neg (not_le.mpr h)]
    split_ifs <;> exact fun hc => UndercutStatus.noConfusion hc

theorem C3_witness :
    (0 < standard_pair_params.driver.teeth ∧
      gear_pair_status1 standard_pair_params ≠ .notApplicable) ∧
    (internal_driver_params.driver.teeth ≤ 0 ∧
      gear_pair_status1 internal_driver_params = .notApplicable) :=
  ⟨⟨by decide, (C3_undercut_status_reachability standard_pair_params).1 (by decide)⟩,
    ⟨by decide, (C3_undercut_status_reachability internal_driver_params).2.1 (by decide)⟩⟩

/-! ## Claim C10 -/

/-- C10: for every construction-valid `GearPairParameters`, converting to
the legacy flat map with `to_calculation_dict` and back with `from_dict`
succeeds and reproduces every field of the original value. -/
theorem C10_legacy_map_roundtrip (p : GearPairParameters) (hv : p.valid) :
    from_dict (to_calculation_dict p) = .ok p := by
  obtain ⟨hm, ha0, ha90, hd1, hd2, hs1, hs2, hs3, hs4, hs5⟩ := hv
  unfold from_dict
  simp only [to_calculation_dict]
  rw [if_neg (not_le.mpr hs1), if_neg (not_le.mpr hs2), if_neg (not_le.mpr hs3),
    if_neg (not_le.mpr hs4), if_neg (not_le.mpr hs5), if_neg hd1, if_neg hd2,
    if_neg (not_le.mpr hm), if_neg (not_not_intro ⟨ha0, ha90⟩)]

theorem C10_witness :
    roundtrip_params.valid ∧
    from_dict (to_calculation_dict roundtrip_params) = .ok roundtrip_params := by
  have hv : roundtrip_params.valid := by
    refine ⟨?_, ?_, ?_, ?_, ?_, ?_⟩ <;>
      norm_num [roundtrip_params, GearSpec.valid, SegmentationSettings.valid]
  exact ⟨hv, C10_legacy_map_roundtrip roundtrip_params hv⟩

/-! ## Claim C8 -/

/-- Rational bounds on sin(20°) = sin(π/9), from `sin x < x` and
`x − x³/4 < sin x`. -/
theorem sin_pi_div_nine_bounds :
    0.338 < Real.sin (Real.pi / 9) ∧ Real.sin (Real.pi / 9) < 0.34906589 := by
  have hub : Real.pi / 9 < 0.34906589 := by linarith [Real.pi_lt_d6]
  have hlb : 0.34906577 < Real.pi / 9 := by linarith [Real.pi_gt_d6]
  have hpos : 0 < Real.pi / 9 := by linarith [Real.pi_pos]
  have h1le : Real.pi / 9 ≤ 1 := by linarith
  have hsub := Real.sin_gt_sub_cube hpos h1le
  constructor
  · have hcube : (Real.pi / 9) ^ 3 < (0.34906589 : ℝ) ^ 3 :=
      pow_lt_pow_left₀ hub hpos.le (by norm_num)
    nlinarith [hsub, hlb, hcube]
  · exact lt_trans (Real.sin_lt hpos) hub

/-- For a positive teeth count, `check_undercut` reduces to the
warning/OK comparison against `x_min`. -/
theorem check_undercut_eq_of_pos {teeth : ℤ} (h : 0 < teeth) (α x a : ℝ) :
    check_undercut teeth α x a =
      if x < a - ((teeth : ℝ) / 2) * Real.sin (deg2rad α) ^ 2 then
        .warning (a - ((teeth : ℝ) / 2) * Real.sin (deg2rad α) ^ 2)
      else .ok := by
  unfold check_undercut
  rw [if_neg (not_le.mpr h)]

/-- C8: `check_undercut` returns NotApplicable iff `teeth ≤ 0`; for
positive teeth it returns Warning carrying
`x_min = addendum − (teeth/2)·sin²(α)` iff `profile_shift < x_min` and OK
otherwise; in particular teeth=10, α=20°, addendum 1.0, shift 0.0 yields
Warning with x_min ≈ 0.415 (here bounded in (0.39, 0.43)), and teeth=40
with the same shift yields OK. -/
theorem C8_check_undercut_characterization :
    (∀ (teeth : ℤ) (α x a : ℝ), 0 < α → α < 90 →
      ((check_undercut teeth α x a = .notApplicable ↔ teeth ≤ 0) ∧
        (0 < teeth →
          ((check_undercut teeth α x a =
              .warning (a - ((teeth : ℝ) / 2) * Real.sin (deg2rad α) ^ 2) ↔
            x < a - ((teeth : ℝ) / 2) * Real.sin (deg2rad α) ^ 2) ∧
          (check_undercut teeth α x a = .ok ↔
            a - ((teeth : ℝ) / 2) * Real.sin (deg2rad α) ^ 2 ≤ x))))) ∧
    (∃ w, check_undercut 10 20 0 1 = .warning w ∧ 0.39 < w ∧ w < 0.43) ∧
    check_undercut 40 20 0 1 = .ok := by
  obtain ⟨hslb, hsub⟩ := sin_pi_div_nine_bounds
  have hs2ub : Real.sin (Real.pi / 9) ^ 2 < 0.1218471 := by nlinarith
  have hs2lb : 0.114244 < Real.sin (Real.pi / 9) ^ 2 := by nlinarith
  refine ⟨?_, ?_, ?_⟩
  · intro teeth α x a _h0 _h90
    constructor
    · rcases le_or_lt teeth 0 with ht | ht
      · unfold check_undercut
        rw [if_pos ht]
        exact iff_of_true rfl ht
      · rw [check_undercut_eq_of_pos ht]
        refine iff_of_false ?_ (not_le.mpr ht)
        split_ifs <;> simp
    · intro htpos
      rw [check_undercut_eq_of_pos htpos]
      split_ifs with hx
      · exact ⟨iff_of_true rfl hx, iff_of_false (by simp) (not_le.mpr hx)⟩
      · exact ⟨iff_of_false (by simp) hx, iff_of_true rfl (not_lt.mp hx)⟩
  · refine ⟨1 - (((10 : ℤ) : ℝ) / 2) * Real.sin (deg2rad 20) ^ 2, ?_, ?_, ?_⟩
    · rw [check_undercut_eq_of_pos (by decide)]
      rw [if_pos ?_]
      rw [deg2rad_twenty]
      push_cast
      nlinarith
    · rw [deg2rad_twenty]
      push_cast
      nlinarith
    · rw [deg2rad_twenty]
      push_cast
      nlinarith
  · rw [check_undercut_eq_of_pos (by decide)]
    rw [if_neg ?_]
    rw [deg2rad_twenty]
    push_cast
    nlinarith

theorem C8_witness :
    ((0 : ℝ) < 20 ∧ (20 : ℝ) < 90 ∧ check_undercut (-7) 20 0 1 = .notApplicable) ∧
    (∃ w, check_undercut 10 20 0 1 = .warning w ∧ 0.39 < w ∧ w < 0.43) ∧
    check_undercut 40 20 0 1 = .ok := by
  refine ⟨⟨by norm_num, by norm_num, ?_⟩,
    C8_check_undercut_characterization.2.1, C8_check_undercut_characterization.2.2⟩
  exact (C8_check_undercut_characterization.1 (-7) 20 0 1 (by norm_num)
    (by norm_num)).1.mpr (by decide)

/-! ## Claim C1 -/

/-- In the degenerate branch the contact ratio component is 0. -/
theorem calculate_contact_ratio_fst_deg
    (module : ℝ) (z1 z2 : ℤ) (x1 x2 alpha_deg a1 : ℝ)
    (h : contact_val module z1 x1 alpha_deg a1 < 0 ∨
      contact_val module z2 x2 alpha_deg a1 < 0) :
    (calculate_contact_ratio module z1 z2 x1 x2 alpha_deg a1).1 = 0 := by
  unfold calculate_contact_ratio
  rw [if_pos h]

/-- In the non-degenerate branch the contact ratio component is the path of
contact divided by the base pitch. -/
theorem calculate_contact_ratio_fst_nondeg
    (module : ℝ) (z1 z2 : ℤ) (x1 x2 alpha_deg a1 : ℝ)
    (h : ¬(contact_val module z1 x1 alpha_deg a1 < 0 ∨
      contact_val module z2 x2 alpha_deg a1 < 0)) :
    (calculate_contact_ratio module z1 z2 x1 x2 alpha_deg a1).1 =
      path_of_contact module z1 z2 x1 x2 alpha_deg a1 /
        (module * Real.pi * Real.cos (deg2rad alpha_deg)) := by
  unfold calculate_contact_ratio
  rw [if_neg h]

/-- Every call of the orchestrator fails: `generate_gear_pair` passes 14
positional arguments to `generate_tooth_profile`, whose guard demands
exactly 13 (`expected_args = 13` in the source), so the very first profile
call raises the positional-count `TypeError`. -/
theorem generate_gear_pair_always_errors (p : GearPairParameters) :
    generate_gear_pair p = .error .wrongPositionalCount := rfl

/-- C1 counterexample: two construction-valid parameter sets on which the
claimed invariants of the analysis values fail.  With `addendum_factor =
−1` (accepted at construction) the contact ratio computed via
`calculate_contact_ratio` is negative; with an internal −40-tooth driver
meshing a 20-tooth gear the center distance is −10 < 0.  (Moreover
`generate_gear_pair` itself raises before returning any analysis.) -/
theorem C1_counterexample :
    negative_ratio_params.valid ∧
    (gear_pair_analysis negative_ratio_params).1 < 0 ∧
    negative_center_params.valid ∧
    (gear_pair_analysis negative_center_params).2 < 0 := by
  have hαw : calculate_operating_pressure_angle 10 10 0 0 60 = deg2rad 60 :=
    calc_op_zero_shift 10 10 60
  have hcos : Real.cos (deg2rad 60) = 1 / 2 := by
    rw [deg2rad_sixty, Real.cos_pi_div_three]
  have hsin : Real.sin (deg2rad 60) = Real.sqrt 3 / 2 := by
    rw [deg2rad_sixty, Real.sin_pi_div_three]
  have hval : contact_val 1 10 0 60 (-1) = 39 / 4 := by
    unfold contact_val
    rw [hcos]
    push_cast
    norm_num
  have hcd1 : contact_center_distance 1 10 10 0 0 60 = 10 := by
    unfold contact_center_distance
    rw [hαw, hcos]
    push_cast
    norm_num
  have hpath : path_of_contact 1 10 10 0 0 60 (-1) < 0 := by
    unfold path_of_contact
    rw [hval, hαw, hsin, hcd1]
    have h1 : Real.sqrt (39 / 4) < 3.13 := by
      rw [Real.sqrt_lt' (by norm_num : (0 : ℝ) < 3.13)]
      norm_num
    have h2 : (1.252 : ℝ) < Real.sqrt 3 :=
      (Real.lt_sqrt (by norm_num)).mpr (by norm_num)
    linarith
  have hratio : (calculate_contact_ratio 1 10 10 0 0 60 (-1)).1 < 0 := by
    rw [calculate_contact_ratio_fst_nondeg 1 10 10 0 0 60 (-1) (by rw [hval]; norm_num)]
    apply div_neg_of_neg_of_pos hpath
    rw [hcos]
    linarith [Real.pi_pos]
  have hαw2 : calculate_operating_pressure_angle (-40) 20 0 0 60 = deg2rad 60 :=
    calc_op_zero_shift (-40) 20 60
  have hcd2 : contact_center_distance 1 (-40) 20 0 0 60 = -10 := by
    unfold contact_center_distance
    rw [hαw2, hcos]
    push_cast
    norm_num
  refine ⟨?_, hratio, ?_, ?_⟩
  · refine ⟨?_, ?_, ?_, ?_, ?_, ?_⟩ <;>
      norm_num [negative_ratio_params, GearSpec.valid, SegmentationSettings.valid]
  · refine ⟨?_, ?_, ?_, ?_, ?_, ?_⟩ <;>
      norm_num [negative_center_params, GearSpec.valid, SegmentationSettings.valid]
  · have hsnd : (gear_pair_analysis negative_center_params).2 =
        contact_center_distance 1 (-40) 20 0 0 60 :=
      calculate_contact_ratio_snd 1 (-40) 20 0 0 60 1
    rw [hsnd, hcd2]
    norm_num

/-- C1 amended: `generate_gear_pair` as written never produces an analysis
at all — every call fails with the positional-argument-count `TypeError`
(the wrapper demands 13 positional arguments, the orchestrator passes 14).
For the analysis pair the orchestrator computes before that failure (lines
34-42, via `calculate_contact_ratio`), the claimed invariants hold only
conditionally: contact_ratio ≥ 0 iff either radicand is negative (then it
is 0) or the path of contact is nonnegative, and center_distance > 0 iff
`(z1+z2)·cos(α)/cos(αw) > 0`; neither inequality is unconditional for
construction-valid parameters. -/
theorem C1_analysis_invariants (p : GearPairParameters) (hv : p.valid) :
    generate_gear_pair p = .error .wrongPositionalCount ∧
    (0 ≤ (gear_pair_analysis p).1 ↔
      (contact_val p.module p.driver.teeth p.driver.profile_shift
          p.pressure_angle_deg p.addendum_factor < 0 ∨
        contact_val p.module p.driven.teeth p.driven.profile_shift
          p.pressure_angle_deg p.addendum_factor < 0 ∨
        0 ≤ path_of_contact p.module p.driver.teeth p.driven.teeth
          p.driver.profile_shift p.driven.profile_shift p.pressure_angle_deg
          p.addendum_factor)) ∧
    (0 < (gear_pair_analysis p).2 ↔
      0 < ((p.driver.teeth : ℝ) + (p.driven.teeth : ℝ)) *
        (Real.cos (deg2rad p.pressure_angle_deg) /
          Real.cos (calculate_operating_pressure_angle p.driver.teeth
            p.driven.teeth p.driver.profile_shift p.driven.profile_shift
            p.pressure_angle_deg))) := by
  obtain ⟨hm, h0, h90, _, _, _⟩ := hv
  refine ⟨generate_gear_pair_always_errors p, ?_, ?_⟩
  · by_cases hdeg : contact_val p.module p.driver.teeth p.driver.profile_shift
        p.pressure_angle_deg p.addendum_factor < 0 ∨
      contact_val p.module p.driven.teeth p.driven.profile_shift
        p.pressure_angle_deg p.addendum_factor < 0
    · have h1 : (gear_pair_analysis p).1 = 0 :=
        calculate_contact_ratio_fst_deg p.module p.driver.teeth p.driven.teeth
          p.driver.profile_shift p.driven.profile_shift p.pressure_angle_deg
          p.addendum_factor hdeg
      rw [h1]
      refine iff_of_true le_rfl ?_
      rcases hdeg with h | h
      · exact Or.inl h
      · exact Or.inr (Or.inl h)
    · have h1 : (gear_pair_analysis p).1 =
          path_of_contact p.module p.driver.teeth p.driven.teeth
            p.driver.profile_shift p.driven.profile_shift p.pressure_angle_deg
            p.addendum_factor /
          (p.module * Real.pi * Real.cos (deg2rad p.pressure_angle_deg)) :=
        calculate_contact_ratio_fst_nondeg p.module p.driver.teeth p.driven.teeth
          p.driver.profile_shift p.driven.profile_shift p.pressure_angle_deg
          p.addendum_factor hdeg
      have hbp : 0 < p.module * Real.pi * Real.cos (deg2rad p.pressure_angle_deg) :=
        mul_pos (mul_pos hm Real.pi_pos) (cos_deg2rad_pos h0 h90)
      rw [h1, le_div_iff₀ hbp, zero_mul]
      rw [not_or] at hdeg
      constructor
      · exact fun h => Or.inr (Or.inr h)
      · rintro (h | h | h)
        · exact absurd h hdeg.1
        · exact absurd h hdeg.2
        · exact h
  · have hsnd : (gear_pair_analysis p).2 =
        contact_center_distance p.module p.driver.teeth p.driven.teeth
          p.driver.profile_shift p.driven.profile_shift p.pressure_angle_deg :=
      calculate_contact_ratio_snd p.module p.driver.teeth p.driven.teeth
        p.driver.profile_shift p.driven.profile_shift p.pressure_angle_deg
        p.addendum_factor
    rw [hsnd]
    unfold contact_center_distance
    have hrw : p.module * ((p.driver.teeth : ℝ) + (p.driven.teeth : ℝ)) / 2 *
        (Real.cos (deg2rad p.pressure_angle_deg) /
          Real.cos (calculate_operating_pressure_angle p.driver.teeth
            p.driven.teeth p.driver.profile_shift p.driven.profile_shift
            p.pressure_angle_deg)) =
        (p.module / 2) * (((p.driver.teeth : ℝ) + (p.driven.teeth : ℝ)) *
          (Real.cos (deg2rad p.pressure_angle_deg) /
            Real.cos (calculate_operating_pressure_angle p.driver.teeth
              p.driven.teeth p.driver.profile_shift p.driven.profile_shift
              p.pressure_angle_deg))) := by ring
    rw [hrw]
    have hm2 : 0 < p.module / 2 := by linarith
    constructor
    · intro h
      by_contra hX
      push_neg at hX
      nlinarith
    · exact fun h => mul_pos hm2 h

theorem C1_witness :
    standard_pair_params.valid ∧
    (generate_gear_pair standard_pair_params = .error .wrongPositionalCount ∧
      (0 ≤ (gear_pair_analysis standard_pair_params).1 ↔
        (contact_val standard_pair_params.module
            standard_pair_params.driver.teeth
            standard_pair_params.driver.profile_shift
            standard_pair_params.pressure_angle_deg
            standard_pair_params.addendum_factor < 0 ∨
          contact_val standard_pair_params.module
            standard_pair_params.driven.teeth
            standard_pair_params.driven.profile_shift
            standard_pair_params.pressure_angle_deg
            standard_pair_params.addendum_factor < 0 ∨
          0 ≤ path_of_contact standard_pair_params.module
            standard_pair_params.driver.teeth
            standard_pair_params.driven.teeth
            standard_pair_params.driver.profile_shift
            standard_pair_params.driven.profile_shift
            standard_pair_params.pressure_angle_deg
            standard_pair_params.addendum_factor)) ∧
      (0 < (gear_pair_analysis standard_pair_params).2 ↔
        0 < ((standard_pair_params.driver.teeth : ℝ) +
            (standard_pair_params.driven.teeth : ℝ)) *
          (Real.cos (deg2rad standard_pair_params.pressure_angle_deg) /
            Real.cos (calculate_operating_pressure_angle
              standard_pair_params.driver.teeth
              standard_pair_params.driven.teeth
              standard_pair_params.driver.profile_shift
              standard_pair_params.driven.profile_shift
              standard_pair_params.pressure_angle_deg)))) := by
  have hv : standard_pair_params.valid := by
    refine ⟨?_, ?_, ?_, ?_, ?_, ?_⟩ <;>
      norm_num [standard_pair_params, GearSpec.valid, SegmentationSettings.valid]
  exact ⟨hv, C1_analysis_invariants standard_pair_params hv⟩

end FGPG
